import Mathlib

/-!
# RetroTrivia: the generated asset symbol table

`GeneratedAssetSymbols.h` is a header of six `static NSString * const`
declarations.  The development below embeds the header in two ways:

* every declaration is transcribed as a Lean constant of the same name;
* the text of the header is kept line by line, and `declaredConstants` reads
  the declarations (with their documentation comments) back out of that text.

The properties of the symbol table are stated about `declaredConstants`.
-/

namespace RetroTrivia

/-! ## The declarations, transcribed -/

/-- The resource bundle ID. -/
def ACBundleID : String := "com.oak-tech.RetroTrivia"

/-- The "ElectricBlue" asset catalog color resource. -/
def ACColorNameElectricBlue : String := "ElectricBlue"

/-- The "HotMagenta" asset catalog color resource. -/
def ACColorNameHotMagenta : String := "HotMagenta"

/-- The "NeonPink" asset catalog color resource. -/
def ACColorNameNeonPink : String := "NeonPink"

/-- The "NeonYellow" asset catalog color resource. -/
def ACColorNameNeonYellow : String := "NeonYellow"

/-- The "RetroPurple" asset catalog color resource. -/
def ACColorNameRetroPurple : String := "RetroPurple"

/-! ## The header text -/

/-- The lines of `GeneratedAssetSymbols.h`, in order and unchanged. -/
def GeneratedAssetSymbols_h : List String :=
  [ "#import <Foundation/Foundation.h>",
    "",
    "#if __has_attribute(swift_private)",
    "#define AC_SWIFT_PRIVATE __attribute__((swift_private))",
    "#else",
    "#define AC_SWIFT_PRIVATE",
    "#endif",
    "",
    "/// The resource bundle ID.",
    "static NSString * const ACBundleID AC_SWIFT_PRIVATE = @\"com.oak-tech.RetroTrivia\";",
    "",
    "/// The \"ElectricBlue\" asset catalog color resource.",
    "static NSString * const ACColorNameElectricBlue AC_SWIFT_PRIVATE = @\"ElectricBlue\";",
    "",
    "/// The \"HotMagenta\" asset catalog color resource.",
    "static NSString * const ACColorNameHotMagenta AC_SWIFT_PRIVATE = @\"HotMagenta\";",
    "",
    "/// The \"NeonPink\" asset catalog color resource.",
    "static NSString * const ACColorNameNeonPink AC_SWIFT_PRIVATE = @\"NeonPink\";",
    "",
    "/// The \"NeonYellow\" asset catalog color resource.",
    "static NSString * const ACColorNameNeonYellow AC_SWIFT_PRIVATE = @\"NeonYellow\";",
    "",
    "/// The \"RetroPurple\" asset catalog color resource.",
    "static NSString * const ACColorNameRetroPurple AC_SWIFT_PRIVATE = @\"RetroPurple\";",
    "",
    "#undef AC_SWIFT_PRIVATE" ]

/-! ## Reading declarations out of the text -/

/-- One declared constant: its documentation comment, the identifier it is
declared under and the string literal it is initialised with. -/
structure Constant where
  doc : String
  symbolicName : String
  literalValue : String
deriving DecidableEq

/-- The two kinds of constant the header declares. -/
inductive Category where
  | BundleID
  | ColorResource
deriving DecidableEq

/-- What is left of `s` after the leading text `lead`, when `s` starts with it. -/
def afterLeading : List Char → List Char → Option (List Char)
  | [], s => some s
  | _ :: _, [] => none
  | p :: ps, c :: cs => if p = c then afterLeading ps cs else none

/-- The text before the first `stop` character and the text after it. -/
def upTo (stop : Char) : List Char → Option (List Char × List Char)
  | [] => none
  | c :: cs =>
    if c = stop then some ([], cs)
    else
      match upTo stop cs with
      | some (before, rest) => some (c :: before, rest)
      | none => none

/-- A documentation comment line `/// text` yields `text`. -/
def readDocComment (line : List Char) : Option String :=
  match afterLeading "/// ".toList line with
  | some text => some (String.mk text)
  | none => none

/-- A line `static NSString * const NAME AC_SWIFT_PRIVATE = @"VALUE";` yields
`(NAME, VALUE)`; any other line yields nothing. -/
def readDeclaration (line : List Char) : Option (String × String) :=
  match afterLeading "static NSString * const ".toList line with
  | none => none
  | some r1 =>
    match upTo ' ' r1 with
    | none => none
    | some (name, r2) =>
      match afterLeading "AC_SWIFT_PRIVATE = @\"".toList r2 with
      | none => none
      | some r3 =>
        match upTo '"' r3 with
        | none => none
        | some (value, r4) =>
          if r4 = [';'] then some (String.mk name, String.mk value) else none

/-- Walks the lines of a header.  A documentation comment is remembered until
the next line; a declaration is emitted with the comment that precedes it. -/
def readLines : Option String → List String → List Constant
  | _, [] => []
  | pending, l :: ls =>
    match readDocComment l.toList with
    | some d => readLines (some d) ls
    | none =>
      match readDeclaration l.toList with
      | some (n, v) => ⟨pending.getD "", n, v⟩ :: readLines none ls
      | none => readLines none ls

/-- The resource symbol table: every constant declared in the header. -/
def declaredConstants : List Constant :=
  readLines none GeneratedAssetSymbols_h

/-- The value declared under a symbolic name, if there is one. -/
def valueOf (name : String) : Option String :=
  (declaredConstants.find? (fun c => c.symbolicName == name)).map Constant.literalValue

/-! ## Categories -/

/-- The category a symbolic name announces: `ACBundleID` is the bundle
identifier, a name starting with `ACColorName` is a color resource. -/
def categoryOfName (name : String) : Option Category :=
  if name = "ACBundleID" then some Category.BundleID
  else
    match afterLeading "ACColorName".toList name.toList with
    | some _ => some Category.ColorResource
    | none => none

/-- The resource name a documentation comment quotes: the text between its
first two double quotes. -/
def quotedName (doc : String) : Option String :=
  match upTo '"' doc.toList with
  | none => none
  | some (_, r) =>
    match upTo '"' r with
    | none => none
    | some (name, _) => some (String.mk name)

/-- The category a documentation comment announces. -/
def categoryOfDoc (doc : String) : Option Category :=
  if doc = "The resource bundle ID." then some Category.BundleID
  else
    match upTo '"' doc.toList with
    | none => none
    | some (_, r) =>
      match upTo '"' r with
      | none => none
      | some (_, tail) =>
        if tail = " asset catalog color resource.".toList then some Category.ColorResource
        else none

/-- The text of a symbolic name after the `ACColorName` lead, if it has it. -/
def withoutColorLead (name : String) : Option String :=
  match afterLeading "ACColorName".toList name.toList with
  | some rest => some (String.mk rest)
  | none => none

/-! ## Reverse-DNS identifiers -/

/-- The segments of an identifier: the pieces between its `.` characters. -/
def segments (s : String) : List (List Char) :=
  s.toList.splitOn '.'

/-- A reverse-DNS-style identifier: at least two segments, none of them empty,
and no whitespace character anywhere. -/
def ReverseDNS (s : String) : Prop :=
  2 ≤ (segments s).length ∧ (∀ seg ∈ segments s, seg ≠ []) ∧
    ∀ ch ∈ s.toList, ch.isWhitespace = false

instance (s : String) : Decidable (ReverseDNS s) := by
  unfold ReverseDNS
  exact inferInstance

/-! ## The table read from the header -/

set_option maxRecDepth 100000

/-- Reading the header text gives six constants, each with the documentation
comment written above its declaration. -/
theorem declaredConstants_eq :
    declaredConstants =
      [ ⟨"The resource bundle ID.", "ACBundleID", "com.oak-tech.RetroTrivia"⟩,
        ⟨"The \"ElectricBlue\" asset catalog color resource.",
          "ACColorNameElectricBlue", "ElectricBlue"⟩,
        ⟨"The \"HotMagenta\" asset catalog color resource.",
          "ACColorNameHotMagenta", "HotMagenta"⟩,
        ⟨"The \"NeonPink\" asset catalog color resource.",
          "ACColorNameNeonPink", "NeonPink"⟩,
        ⟨"The \"NeonYellow\" asset catalog color resource.",
          "ACColorNameNeonYellow", "NeonYellow"⟩,
        ⟨"The \"RetroPurple\" asset catalog color resource.",
          "ACColorNameRetroPurple", "RetroPurple"⟩ ] := by
  decide

/-- The transcribed constants are the values the header text declares under
their names. -/
theorem transcription_agrees :
    valueOf "ACBundleID" = some ACBundleID ∧
    valueOf "ACColorNameElectricBlue" = some ACColorNameElectricBlue ∧
    valueOf "ACColorNameHotMagenta" = some ACColorNameHotMagenta ∧
    valueOf "ACColorNameNeonPink" = some ACColorNameNeonPink ∧
    valueOf "ACColorNameNeonYellow" = some ACColorNameNeonYellow ∧
    valueOf "ACColorNameRetroPurple" = some ACColorNameRetroPurple := by
  decide

/-- On every declared constant the category announced by the symbolic name and
the category announced by the documentation comment are the same, and there is
one. -/
theorem categories_agree :
    ∀ c ∈ declaredConstants,
      categoryOfName c.symbolicName = categoryOfDoc c.doc ∧
        categoryOfName c.symbolicName ≠ none := by
  decide

/-! ## The claims -/

/-- C1: the symbol table declared in the header consists of exactly six
constants: `ACBundleID`, the one bundle-identifier constant, with value
`com.oak-tech.RetroTrivia`, and five color-resource constants with values
`ElectricBlue`, `HotMagenta`, `NeonPink`, `NeonYellow` and `RetroPurple`; no
other constant is declared. -/
theorem C1_table_is_exactly_six_constants :
    declaredConstants.map (fun c => (c.symbolicName, c.literalValue)) =
        [ ("ACBundleID", "com.oak-tech.RetroTrivia"),
          ("ACColorNameElectricBlue", "ElectricBlue"),
          ("ACColorNameHotMagenta", "HotMagenta"),
          ("ACColorNameNeonPink", "NeonPink"),
          ("ACColorNameNeonYellow", "NeonYellow"),
          ("ACColorNameRetroPurple", "RetroPurple") ] ∧
      declaredConstants.length = 6 ∧
      (declaredConstants.filter
          (fun c => categoryOfName c.symbolicName = some Category.BundleID)).map
        (fun c => (c.symbolicName, c.literalValue)) =
        [ ("ACBundleID", "com.oak-tech.RetroTrivia") ] ∧
      (declaredConstants.filter
          (fun c => categoryOfName c.symbolicName = some Category.ColorResource)).map
        Constant.literalValue =
        [ "ElectricBlue", "HotMagenta", "NeonPink", "NeonYellow", "RetroPurple" ] ∧
      valueOf "ACBundleID" = some ACBundleID ∧
      ACBundleID = "com.oak-tech.RetroTrivia" := by
  decide

/-- C2: the value of `ACBundleID` is a reverse-DNS-style identifier: splitting
it on `.` gives the three non-empty segments `com`, `oak-tech` and
`RetroTrivia` (so at least two), and it contains no whitespace character. -/
theorem C2_bundle_id_is_reverse_dns :
    valueOf "ACBundleID" = some ACBundleID ∧
      segments ACBundleID = ["com".toList, "oak-tech".toList, "RetroTrivia".toList] ∧
      ReverseDNS ACBundleID := by
  decide

/-- C3: the symbolic names of the declared constants are pairwise distinct, so
the table maps a name to one value: two entries with the same symbolic name
are the same entry. -/
theorem C3_symbolic_names_pairwise_distinct :
    declaredConstants.Pairwise (fun a b => a.symbolicName ≠ b.symbolicName) ∧
      (declaredConstants.map Constant.symbolicName).Nodup ∧
      ∀ a ∈ declaredConstants, ∀ b ∈ declaredConstants,
        a.symbolicName = b.symbolicName → a = b := by
  decide

/-- C4: the literal value of every declared constant is a non-empty string:
its length is at least 1. -/
theorem C4_literal_values_nonempty (c : Constant) (hc : c ∈ declaredConstants) :
    1 ≤ c.literalValue.length ∧ c.literalValue ≠ "" := by
  have h : ∀ d ∈ declaredConstants, 1 ≤ d.literalValue.length ∧ d.literalValue ≠ "" := by
    decide
  exact h c hc

/-- C4 at the `ACColorNameHotMagenta` entry. -/
theorem C4_literal_values_nonempty_witness :
    (⟨"The \"HotMagenta\" asset catalog color resource.", "ACColorNameHotMagenta",
        "HotMagenta"⟩ : Constant) ∈ declaredConstants ∧
      (1 ≤ "HotMagenta".length ∧ "HotMagenta" ≠ "") :=
  ⟨by decide,
    C4_literal_values_nonempty
      ⟨"The \"HotMagenta\" asset catalog color resource.", "ACColorNameHotMagenta",
        "HotMagenta"⟩ (by decide)⟩

/-- C5: for every color constant, the resource name quoted in its
documentation comment is exactly its string value: the comment reads
`The "X" asset catalog color resource.` where `X` is the value. -/
theorem C5_doc_comment_quotes_value (c : Constant) (hc : c ∈ declaredConstants)
    (hcolor : categoryOfName c.symbolicName = some Category.ColorResource ∨
      categoryOfDoc c.doc = some Category.ColorResource) :
    quotedName c.doc = some c.literalValue ∧
      c.doc = "The \"" ++ c.literalValue ++ "\" asset catalog color resource." := by
  have h : ∀ d ∈ declaredConstants,
      (categoryOfName d.symbolicName = some Category.ColorResource ∨
        categoryOfDoc d.doc = some Category.ColorResource) →
      quotedName d.doc = some d.literalValue ∧
        d.doc = "The \"" ++ d.literalValue ++ "\" asset catalog color resource." := by
    decide
  exact h c hc hcolor

/-- C5 at the `ACColorNameElectricBlue` entry. -/
theorem C5_doc_comment_quotes_value_witness :
    (⟨"The \"ElectricBlue\" asset catalog color resource.", "ACColorNameElectricBlue",
        "ElectricBlue"⟩ : Constant) ∈ declaredConstants ∧
      categoryOfName "ACColorNameElectricBlue" = some Category.ColorResource ∧
      quotedName "The \"ElectricBlue\" asset catalog color resource." = some "ElectricBlue" :=
  ⟨by decide, by decide,
    (C5_doc_comment_quotes_value
      ⟨"The \"ElectricBlue\" asset catalog color resource.", "ACColorNameElectricBlue",
        "ElectricBlue"⟩ (by decide) (Or.inl (by decide))).1⟩

/-- C7: for every color constant, the symbolic name is `ACColorName` followed
by the string value; equivalently, the symbolic name without its leading
`ACColorName` is the literal value. -/
theorem C7_symbolic_name_is_lead_plus_value (c : Constant) (hc : c ∈ declaredConstants)
    (hcolor : categoryOfName c.symbolicName = some Category.ColorResource ∨
      categoryOfDoc c.doc = some Category.ColorResource) :
    c.symbolicName = "ACColorName" ++ c.literalValue ∧
      withoutColorLead c.symbolicName = some c.literalValue := by
  have h : ∀ d ∈ declaredConstants,
      (categoryOfName d.symbolicName = some Category.ColorResource ∨
        categoryOfDoc d.doc = some Category.ColorResource) →
      d.symbolicName = "ACColorName" ++ d.literalValue ∧
        withoutColorLead d.symbolicName = some d.literalValue := by
    decide
  exact h c hc hcolor

/-- C7 at the `ACColorNameNeonPink` entry. -/
theorem C7_symbolic_name_is_lead_plus_value_witness :
    (⟨"The \"NeonPink\" asset catalog color resource.", "ACColorNameNeonPink",
        "NeonPink"⟩ : Constant) ∈ declaredConstants ∧
      categoryOfDoc "The \"NeonPink\" asset catalog color resource." =
        some Category.ColorResource ∧
      ("ACColorNameNeonPink" = "ACColorName" ++ "NeonPink" ∧
        withoutColorLead "ACColorNameNeonPink" = some "NeonPink") :=
  ⟨by decide, by decide,
    C7_symbolic_name_is_lead_plus_value
      ⟨"The \"NeonPink\" asset catalog color resource.", "ACColorNameNeonPink",
        "NeonPink"⟩ (by decide) (Or.inr (by decide))⟩

/-- C8: the literal values of the six declared constants are pairwise
distinct: two entries with the same value are the same entry, and no color
value is the bundle identifier. -/
theorem C8_literal_values_pairwise_distinct :
    declaredConstants.Pairwise (fun a b => a.literalValue ≠ b.literalValue) ∧
      (declaredConstants.map Constant.literalValue).Nodup ∧
      (∀ a ∈ declaredConstants, ∀ b ∈ declaredConstants,
        a.literalValue = b.literalValue → a.symbolicName = b.symbolicName) ∧
      ∀ c ∈ declaredConstants,
        categoryOfName c.symbolicName = some Category.ColorResource →
          valueOf "ACBundleID" ≠ some c.literalValue := by
  decide

end RetroTrivia
